import Mathlib

/-!
Verification of the country-filter dropdown of the `irrapp` repository.

The embedding below translates the relevant JavaScript sources:

* `src/ui/src/components/CountryFilter.jsx` — the `CountryFilter` React
  component: `useQuery` result destructured into `loading`, `error`, `data`;
  local state `selectedCountry` (initially the empty string); the render
  branches (loading spinner, error card, dropdown / no-data, echo line)
  and the `handleCountryChange` handler.
* `src/ui/src/lib/apollo.js` — the Apollo client configuration (HTTP link
  to `/api`, `InMemoryCache`, `errorPolicy: 'all'`).

JavaScript optional values (`undefined` / absent fields) are modelled with
`Option`; JavaScript truthiness of strings (`''` is falsy) and of numbers
(`0` is falsy, as in `x || 0`) is modelled explicitly.
-/

namespace IrrApp

/-- The `_distinct_` object of a backend row: `{ CustomerId }`, where
`CustomerId` itself may be absent. From the query document in
`CountryFilter.jsx`. -/
structure Distinct where
  CustomerId : Option Int
  deriving DecidableEq, Repr

/-- One element of the backend's `customer` array:
`{ Country: string, _distinct_: { CustomerId } }`, where `_distinct_` may be
absent on a row. From the query document in `CountryFilter.jsx`. -/
structure CountryRow where
  Country : String
  distinctField : Option Distinct
  deriving DecidableEq, Repr

/-- The `data` object returned by the query: `{ customer: [...] }`, where the
`customer` field may be absent (the component guards with `data?.customer`). -/
structure QueryResponse where
  customer : Option (List CountryRow)
  deriving DecidableEq, Repr

/-- JavaScript `x || 0` on an optional number: absent and `0` are falsy. -/
def jsOrZero : Option Int → Int
  | none => 0
  | some n => if n = 0 then 0 else n

/-- The count shown for a row: `item._distinct_?.CustomerId || 0`, from the
option body in `CountryFilter.jsx`. -/
def customerCount (r : CountryRow) : Int :=
  jsOrZero (r.distinctField.bind (·.CustomerId))

/-- The component's state: the three fields destructured from
`useQuery(GET_CUSTOMER_COUNTRIES)` plus the `selectedCountry` local state.
`selectedCountry = none` models the JavaScript `undefined` (what the
clearable dropdown passes on clear), `some ""` models the initial `''`. -/
structure ComponentState where
  loading : Bool
  error : Option String
  data : Option QueryResponse
  selectedCountry : Option String
  deriving DecidableEq, Repr

/-- The row list the component works on:
`const countries = data?.customer || [];` — in JavaScript an empty array is
truthy, so only a nullish/absent `customer` is replaced. -/
def currentCountries (s : ComponentState) : List CountryRow :=
  (s.data.bind (·.customer)).getD []

/-- JavaScript truthiness of `selectedCountry` (guard of the echo line):
`undefined` and `''` are falsy. -/
def echoLine : Option String → Option String
  | none => none
  | some s => if s = "" then none else some s

/-- What the component returns from its render function, abstracted to the
data-carrying content: the loading card, the error card (with its full
text), or the main card holding either the dropdown's option list
(label, customer count per option) or the no-data text, plus the optional
echo line. -/
inductive Render where
  | loadingView : Render
  | errorView : String → Render
  | populatedView : List (String × Int) → Option String → Render
  | noDataView : Option String → Render
  deriving DecidableEq, Repr

/-- The option list displayed by a render; empty for every view that shows
no dropdown. -/
def Render.optionList : Render → List (String × Int)
  | .populatedView opts _ => opts
  | _ => []

/-- The echo line displayed by a render ("Selected: …"), if any. -/
def Render.echo : Render → Option String
  | .populatedView _ e => e
  | .noDataView e => e
  | _ => none

/-- The text of the error card: `Error loading countries: {error.message}`. -/
def errorText (msg : String) : String :=
  "Error loading countries: " ++ msg

/-- The render function of `CountryFilter`, in source order: the
`if (loading)` early return, the `if (error)` early return, then the
`countries.length > 0` ternary between the dropdown (one `Option` per row,
labelled `item.Country`, annotated `item._distinct_?.CustomerId || 0`) and
the "No country data available" text, and finally the echo line guarded by
`selectedCountry && …`. -/
def render (s : ComponentState) : Render :=
  if s.loading then .loadingView
  else
    match s.error with
    | some msg => .errorView (errorText msg)
    | none =>
      let countries := currentCountries s
      if countries.isEmpty then
        .noDataView (echoLine s.selectedCountry)
      else
        .populatedView (countries.map fun r => (r.Country, customerCount r))
          (echoLine s.selectedCountry)

/-- The `handleCountryChange` handler: `setSelectedCountry(data.optionValue)`. The
Fluent dropdown passes the selected option's value (its `text` prop, here
`item.Country`), or `undefined` when the clearable control is cleared. -/
def handleCountryChange (s : ComponentState) (optionValue : Option String) :
    ComponentState :=
  { s with selectedCountry := optionValue }

/-- Whether the dropdown is on screen (`!loading`, no error, nonempty
`countries`): only then can a select or clear interaction occur. -/
def dropdownShown (s : ComponentState) : Bool :=
  !s.loading && s.error.isNone && !(currentCountries s).isEmpty

/-- The interactions that can change the component's state: the user picks
the `i`-th rendered option, the user clears the dropdown, or the query
layer delivers a new `data` value (the component has no handler for this —
`selectedCountry` is plain `useState` local state, untouched by data
updates). -/
inductive Event where
  | select : Nat → Event
  | clear : Event
  | newData : Option QueryResponse → Event
  deriving DecidableEq, Repr

/-- One step of the component under an interaction, translated from
`CountryFilter.jsx`: selections go through `handleCountryChange` with the
picked option's `Country` (only possible while the dropdown is rendered);
clearing passes `undefined`; a data update replaces `data` and nothing
else. -/
def step (s : ComponentState) : Event → ComponentState
  | .select i =>
    if dropdownShown s then
      match (currentCountries s)[i]? with
      | some r => handleCountryChange s (some r.Country)
      | none => s
    else s
  | .clear =>
    if dropdownShown s then handleCountryChange s none else s
  | .newData d => { s with data := d }

/-- A transport-level fault, one of the three kinds of the spec's taxonomy,
each carrying its human-readable message. -/
inductive Fault where
  | network : String → Fault
  | protocol : String → Fault
  | backend : String → Fault
  deriving DecidableEq, Repr

/-- The message text of a fault. -/
def Fault.message : Fault → String
  | .network m => m
  | .protocol m => m
  | .backend m => m

/-- What a completed query yields past the Transport boundary: either a
normalized failure carrying a message, or the (possibly absent) `data`
payload. -/
inductive TransportResult where
  | failed : String → TransportResult
  | succeeded : Option QueryResponse → TransportResult
  deriving DecidableEq, Repr

/-- Modelled from the spec: the normalization performed at the Transport
boundary by the Apollo client configured in `src/ui/src/lib/apollo.js`
(`errorPolicy: 'all'`; the client library itself is not under `src/`) —
"All three are normalized to `Failed{message}` at the Transport boundary". -/
def normalizeFault (f : Fault) : TransportResult :=
  .failed f.message

/-- How a completed `TransportResult` appears to the component through
`useQuery`'s `{ loading, error, data }` destructuring: a failure arrives as
a non-null `error` carrying the message, a success as the `data` payload,
with `loading` false in both cases. `sel` is the component's current
`selectedCountry`. -/
def stateOfResult (sel : Option String) : TransportResult → ComponentState
  | .failed m => ⟨false, some m, none, sel⟩
  | .succeeded d => ⟨false, none, d, sel⟩

/-- Modelled from the spec: the Result Cache (Apollo's `InMemoryCache`,
instantiated in `src/ui/src/lib/apollo.js` but implemented outside `src/`):
a keyed store from query signatures to values, newest entry first. -/
def Cache (α : Type) : Type :=
  List (String × α)

/-- Modelled from the spec: `lookup(signature)` — pure read, returns the
most recently stored value for the signature, if any. -/
def lookup {α : Type} (c : Cache α) (sig : String) : Option α :=
  (List.find? (fun e => e.1 == sig) c).map (·.2)

/-- Modelled from the spec: `store(signature, result)` — inserts or
overwrites; the new entry shadows any older entry with the same signature
(last-write-wins). -/
def store {α : Type} (c : Cache α) (sig : String) (v : α) : Cache α :=
  (sig, v) :: c

/-- The query-issuing state shared by the process: the singleton cache
(holding the `data` payload of the last Succeeded result per signature) and
a counter of network round trips, used to observe network I/O. -/
structure QuerySystem where
  cache : Cache (Option QueryResponse)
  networkCalls : Nat

/-- Modelled from the spec: one execution of the fixed query against the
cache-fronted Transport ("Transport consults the Result Cache first; on
miss, performs network I/O, stores the result, returns it"; only Succeeded
results are stored — the cache's value is "the last `Succeeded`
QueryResult"). `net` is what the network would answer if contacted. -/
def executeQuery (st : QuerySystem) (sig : String) (net : TransportResult) :
    QuerySystem × TransportResult :=
  match lookup st.cache sig with
  | some d => (st, .succeeded d)
  | none =>
    match net with
    | .succeeded d =>
      (⟨store st.cache sig d, st.networkCalls + 1⟩, .succeeded d)
    | .failed m => (⟨st.cache, st.networkCalls + 1⟩, .failed m)

/-- The whole client-side state relevant to the claims: the component, the
process-wide cache, and the network-call counter. -/
structure AppState where
  comp : ComponentState
  cache : Cache (Option QueryResponse)
  networkCalls : Nat

/-- A user selection at the application level: only the component's
`handleCountryChange` runs — nothing touches the cache or the network. -/
def selectApp (a : AppState) (v : Option String) : AppState :=
  { a with comp := handleCountryChange a.comp v }

/-! ## Helper lemmas -/

/-- A `lookup` finds the entry just written by `store` (it is the head of the
list). -/
theorem lookup_store {α : Type} (c : Cache α) (sig : String) (v : α) :
    lookup (store c sig v) sig = some v := by
  simp [lookup, store, List.find?]

/-- After a left fold of `store`s of `vs` onto `c` at a fixed signature,
`lookup` returns the last element of `vs`. -/
theorem lookup_foldl_store {α : Type} (sig : String) (vs : List α)
    (h : vs ≠ []) (c : Cache α) :
    lookup (List.foldl (fun acc w => store acc sig w) c vs) sig
      = some (vs.getLast h) := by
  induction vs generalizing c with
  | nil => exact absurd rfl h
  | cons v vs ih =>
    cases vs with
    | nil => simpa using lookup_store c sig v
    | cons w ws =>
      rw [List.getLast_cons (by simp)]
      simpa [List.foldl] using ih (by simp) (store c sig v)

/-- A nonempty `countries` list renders as the populated view with one
option per row. -/
theorem render_populated (s : ComponentState) (hl : s.loading = false)
    (he : s.error = none) (hne : currentCountries s ≠ []) :
    render s = .populatedView
      ((currentCountries s).map fun r => (r.Country, customerCount r))
      (echoLine s.selectedCountry) := by
  simp [render, hl, he, List.isEmpty_iff, hne]

/-- The rendered option list does not depend on `selectedCountry`: updating
it through `handleCountryChange` leaves the option list unchanged. -/
theorem optionList_handleCountryChange (s : ComponentState) (v : Option String) :
    (render (handleCountryChange s v)).optionList = (render s).optionList := by
  obtain ⟨l, e, d, sel⟩ := s
  cases l with
  | true => rfl
  | false =>
    cases e with
    | some m => rfl
    | none =>
      by_cases hc : ((d.bind QueryResponse.customer).getD []).isEmpty <;>
        simp [render, handleCountryChange, currentCountries, Render.optionList, hc]

/-! ## Claims -/

/-- C2: every transport failure — network, protocol or backend fault — is
normalized to a failed result carrying the fault's message; the component
renders the error card, whose text contains that message, and renders no
option list. -/
theorem c2_failure_renders_message_no_options (f : Fault) (sel : Option String) :
    render (stateOfResult sel (normalizeFault f)) = .errorView (errorText f.message) ∧
    errorText f.message = "Error loading countries: " ++ f.message ∧
    (render (stateOfResult sel (normalizeFault f))).optionList = [] := by
  cases f <;>
    simp [render, stateOfResult, normalizeFault, Fault.message, errorText,
      Render.optionList]

/-- C3: a row whose `_distinct_` field is absent has `customerCount` 0, and
the option rendered for it is annotated with 0; the render function is
total, so no fault is raised. -/
theorem c3_missing_distinct_counts_zero (s : ComponentState) (i : Nat)
    (r : CountryRow) (hl : s.loading = false) (he : s.error = none)
    (hr : (currentCountries s)[i]? = some r) (hd : r.distinctField = none) :
    customerCount r = 0 ∧ (render s).optionList[i]? = some (r.Country, 0) := by
  have hcount : customerCount r = 0 := by simp [customerCount, hd, jsOrZero]
  have hne : currentCountries s ≠ [] := by
    intro h
    rw [h] at hr
    simp at hr
  refine ⟨hcount, ?_⟩
  rw [render_populated s hl he hne]
  simp [Render.optionList, hr, hcount]

/-- Witness for C3 at a concrete one-row response whose row lacks
`_distinct_`. -/
theorem c3_witness :
    customerCount ⟨"USA", none⟩ = 0 ∧
    (render ⟨false, none, some ⟨some [⟨"USA", none⟩]⟩, some ""⟩).optionList[0]?
      = some ("USA", 0) :=
  c3_missing_distinct_counts_zero
    ⟨false, none, some ⟨some [⟨"USA", none⟩]⟩, some ""⟩ 0 ⟨"USA", none⟩
    rfl rfl (by simp [currentCountries]) rfl

/-- C4: a successful response with zero rows renders the no-data view, not
an error view. -/
theorem c4_empty_rows_render_no_data (s : ComponentState)
    (hl : s.loading = false) (he : s.error = none)
    (hd : s.data = some ⟨some []⟩) :
    render s = .noDataView (echoLine s.selectedCountry) ∧
    ∀ m, render s ≠ .errorView m := by
  have : render s = .noDataView (echoLine s.selectedCountry) := by
    simp [render, hl, he, currentCountries, hd]
  exact ⟨this, fun m h => by rw [this] at h; exact Render.noConfusion h⟩

/-- Witness for C4 at the concrete response `{customer: []}`. -/
theorem c4_witness :
    render ⟨false, none, some ⟨some []⟩, some ""⟩ = .noDataView none :=
  (c4_empty_rows_render_no_data ⟨false, none, some ⟨some []⟩, some ""⟩
    rfl rfl rfl).1

/-- C5: a non-empty row list renders as a dropdown with exactly one option
per row, in the rows' order, labelled with the row's `Country` and
annotated with its `customerCount`; no deduplication happens, so the option
list always has the same length as the row list. -/
theorem c5_one_option_per_row (s : ComponentState) (rows : List CountryRow)
    (hl : s.loading = false) (he : s.error = none)
    (hrows : currentCountries s = rows) (hne : rows ≠ []) :
    render s = .populatedView (rows.map fun r => (r.Country, customerCount r))
        (echoLine s.selectedCountry) ∧
    (render s).optionList.length = rows.length ∧
    ∀ i : Nat, (render s).optionList[i]?
      = rows[i]?.map fun r => (r.Country, customerCount r) := by
  have hr : render s = .populatedView
      (rows.map fun r => (r.Country, customerCount r))
      (echoLine s.selectedCountry) := by
    have := render_populated s hl he (by rw [hrows]; exact hne)
    rwa [hrows] at this
  refine ⟨hr, ?_, ?_⟩
  · rw [hr]; simp [Render.optionList]
  · intro i
    rw [hr]
    simp [Render.optionList]

/-- Witness for C5 at a concrete response holding two identical rows: both
render as separate options (no dedup), each annotated with its count. -/
theorem c5_witness :
    render ⟨false, none, some ⟨some [⟨"USA", some ⟨some 12⟩⟩, ⟨"USA", some ⟨some 12⟩⟩]⟩, some ""⟩
      = .populatedView [("USA", 12), ("USA", 12)] none ∧
    (render ⟨false, none, some ⟨some [⟨"USA", some ⟨some 12⟩⟩, ⟨"USA", some ⟨some 12⟩⟩]⟩, some ""⟩).optionList.length
      = 2 := by
  have h := c5_one_option_per_row
    ⟨false, none, some ⟨some [⟨"USA", some ⟨some 12⟩⟩, ⟨"USA", some ⟨some 12⟩⟩]⟩, some ""⟩
    [⟨"USA", some ⟨some 12⟩⟩, ⟨"USA", some ⟨some 12⟩⟩]
    rfl rfl (by simp [currentCountries]) (by simp)
  refine ⟨?_, ?_⟩
  · have := h.1
    simpa [customerCount, jsOrZero, echoLine] using this
  · exact h.2.1

/-- C7: a user selection changes only `selectedCountry`: the cache, the
network-call counter, and every other component field are unchanged, and
the rendered option list is unchanged — the echo line is derived rendering
only. -/
theorem c7_selection_frame (a : AppState) (v : Option String) :
    (selectApp a v).cache = a.cache ∧
    (selectApp a v).networkCalls = a.networkCalls ∧
    (selectApp a v).comp.loading = a.comp.loading ∧
    (selectApp a v).comp.error = a.comp.error ∧
    (selectApp a v).comp.data = a.comp.data ∧
    (selectApp a v).comp.selectedCountry = v ∧
    (render (selectApp a v).comp).optionList = (render a.comp).optionList :=
  ⟨rfl, rfl, rfl, rfl, rfl, rfl, optionList_handleCountryChange a.comp v⟩

/-- C10: when a query completes without error but `data` is nullish or has
no `customer` field, the row list coalesces to `[]` and the component
renders the no-data view, never an error view. -/
theorem c10_nullish_data_renders_no_data (s : ComponentState)
    (hl : s.loading = false) (he : s.error = none)
    (hd : s.data = none ∨ s.data = some ⟨none⟩) :
    currentCountries s = [] ∧
    render s = .noDataView (echoLine s.selectedCountry) ∧
    ∀ m, render s ≠ .errorView m := by
  have hcc : currentCountries s = [] := by
    cases hd with
    | inl h => simp [currentCountries, h]
    | inr h => simp [currentCountries, h]
  have hrender : render s = .noDataView (echoLine s.selectedCountry) := by
    simp [render, hl, he, hcc]
  exact ⟨hcc, hrender, fun m h => by rw [hrender] at h; exact Render.noConfusion h⟩

/-- Witness for C10 at a concrete state where `data` is absent entirely. -/
theorem c10_witness :
    currentCountries ⟨false, none, none, none⟩ = [] ∧
    render ⟨false, none, none, none⟩ = .noDataView none := by
  have h := c10_nullish_data_renders_no_data ⟨false, none, none, none⟩
    rfl rfl (Or.inl rfl)
  exact ⟨h.1, by simpa [echoLine] using h.2.1⟩

/-- C1 (amended): a selection can only be made from the rendered options,
so the instant it happens `selectedCountry` equals the `Country` of some
row of the current result; but the component never clears the selection
when new data arrives — a data update leaves `selectedCountry` unchanged,
so after a new query completes the selection may name an absent country. -/
theorem c1_selection_from_rows_never_cleared (s : ComponentState) (i : Nat)
    (r : CountryRow) (hr : (currentCountries s)[i]? = some r)
    (hshown : dropdownShown s = true) (d : Option QueryResponse) :
    (step s (.select i)).selectedCountry = some r.Country ∧
    r.Country ∈ ((currentCountries (step s (.select i))).map CountryRow.Country) ∧
    (step s (.newData d)).selectedCountry = s.selectedCountry := by
  have hsel : step s (.select i) = handleCountryChange s (some r.Country) := by
    simp [step, hshown, hr]
  refine ⟨?_, ?_, rfl⟩
  · rw [hsel]; rfl
  · have hmem : r ∈ currentCountries (step s (.select i)) := by
      have heq : currentCountries (step s (.select i)) = currentCountries s := by
        rw [hsel]; rfl
      rw [heq]
      exact List.getElem?_mem hr
    exact List.mem_map_of_mem CountryRow.Country hmem

/-- Witness for C1's amended statement on a concrete populated state. -/
theorem c1_witness :
    (step ⟨false, none, some ⟨some [⟨"USA", none⟩]⟩, some ""⟩
        (.select 0)).selectedCountry = some "USA" ∧
    "USA" ∈ ((currentCountries (step ⟨false, none, some ⟨some [⟨"USA", none⟩]⟩, some ""⟩
        (.select 0))).map CountryRow.Country) ∧
    (step ⟨false, none, some ⟨some [⟨"USA", none⟩]⟩, some ""⟩
        (.newData none)).selectedCountry = some "" := by
  exact c1_selection_from_rows_never_cleared
    ⟨false, none, some ⟨some [⟨"USA", none⟩]⟩, some ""⟩ 0 ⟨"USA", none⟩
    (by simp [currentCountries]) (by decide) none

/-- Counterexample to C1 as stated: select "USA" from a one-row result,
then let a new query complete with only "France"; the selection stays
non-empty at "USA" although no row of the latest result carries it — the
component does not clear it. -/
theorem c1_counterexample :
    (step (step ⟨false, none, some ⟨some [⟨"USA", none⟩]⟩, some ""⟩ (.select 0))
        (.newData (some ⟨some [⟨"France", none⟩]⟩))).selectedCountry = some "USA" ∧
    "USA" ∉ ((currentCountries
        (step (step ⟨false, none, some ⟨some [⟨"USA", none⟩]⟩, some ""⟩ (.select 0))
          (.newData (some ⟨some [⟨"France", none⟩]⟩)))).map CountryRow.Country) := by
  decide

/-- C6 (amended): picking the `i`-th option synchronously sets
`selectedCountry` to that option's `Country`; the confirmation echo then
renders exactly when that value is truthy (non-empty); clearing the
dropdown resets `selectedCountry` to `undefined` and removes the echo. -/
theorem c6_select_sets_state_clear_resets (s : ComponentState) (i : Nat)
    (r : CountryRow) (hshown : dropdownShown s = true)
    (hr : (currentCountries s)[i]? = some r) :
    (step s (.select i)).selectedCountry = some r.Country ∧
    (render (step s (.select i))).echo
      = (if r.Country = "" then none else some r.Country) ∧
    (step s .clear).selectedCountry = none ∧
    (render (step s .clear)).echo = none := by
  have hparts : (s.loading = false ∧ s.error = none) ∧ ¬currentCountries s = [] := by
    simpa [dropdownShown] using hshown
  obtain ⟨⟨hl, he⟩, hne⟩ := hparts
  have hsel : step s (.select i) = handleCountryChange s (some r.Country) := by
    simp [step, hshown, hr]
  have hclear : step s .clear = handleCountryChange s none := by
    simp [step, hshown]
  refine ⟨by rw [hsel]; rfl, ?_, by rw [hclear]; rfl, ?_⟩
  · rw [hsel]
    rw [render_populated (handleCountryChange s (some r.Country))
      (by simpa [handleCountryChange] using hl)
      (by simpa [handleCountryChange] using he)
      (by simpa [handleCountryChange, currentCountries] using hne)]
    simp [Render.echo, handleCountryChange, echoLine]
  · rw [hclear]
    rw [render_populated (handleCountryChange s none)
      (by simpa [handleCountryChange] using hl)
      (by simpa [handleCountryChange] using he)
      (by simpa [handleCountryChange, currentCountries] using hne)]
    simp [Render.echo, handleCountryChange, echoLine]

/-- Witness for C6's amended statement: selecting "USA" sets the state and
renders the echo; clearing resets it and removes the echo. -/
theorem c6_witness :
    (step ⟨false, none, some ⟨some [⟨"USA", none⟩]⟩, none⟩
        (.select 0)).selectedCountry = some "USA" ∧
    (render (step ⟨false, none, some ⟨some [⟨"USA", none⟩]⟩, none⟩
        (.select 0))).echo = some "USA" ∧
    (step ⟨false, none, some ⟨some [⟨"USA", none⟩]⟩, none⟩
        .clear).selectedCountry = none ∧
    (render (step ⟨false, none, some ⟨some [⟨"USA", none⟩]⟩, none⟩
        .clear)).echo = none := by
  have h := c6_select_sets_state_clear_resets
    ⟨false, none, some ⟨some [⟨"USA", none⟩]⟩, none⟩ 0 ⟨"USA", none⟩
    (by decide) (by simp [currentCountries])
  simpa using h

/-- Counterexample to C6 as stated: selecting an option whose country value
is the empty string (options are rendered for such rows, see C5) sets
`selectedCountry` to that value but renders no confirmation echo, because
the empty string is falsy in the `selectedCountry && …` guard. -/
theorem c6_counterexample :
    (step ⟨false, none, some ⟨some [⟨"", none⟩]⟩, none⟩
        (.select 0)).selectedCountry = some "" ∧
    (render (step ⟨false, none, some ⟨some [⟨"", none⟩]⟩, none⟩
        (.select 0))).echo = none := by
  decide

/-- C8: storing a value for a signature and looking that signature up
returns exactly the stored value; after any non-empty sequence of stores to
one signature, lookup returns the last value stored (last-write-wins). -/
theorem c8_cache_roundtrip_last_write_wins {α : Type} (c : Cache α)
    (sig : String) (v : α) (vs : List α) (hvs : vs ≠ []) :
    lookup (store c sig v) sig = some v ∧
    lookup (List.foldl (fun acc w => store acc sig w) c vs) sig
      = some (vs.getLast hvs) :=
  ⟨lookup_store c sig v, lookup_foldl_store sig vs hvs c⟩

/-- Witness for C8 on a concrete cache: round-trip of a single store, and
last-write-wins over the store sequence `[1, 2, 3]`. -/
theorem c8_witness :
    lookup (store ([] : Cache Nat) "GetCustomerCountries" 7) "GetCustomerCountries"
      = some 7 ∧
    lookup (List.foldl (fun acc w => store acc "GetCustomerCountries" w)
        ([] : Cache Nat) [1, 2, 3]) "GetCustomerCountries" = some 3 := by
  have h := c8_cache_roundtrip_last_write_wins ([] : Cache Nat)
    "GetCustomerCountries" 7 [1, 2, 3] (by decide)
  simpa using h

/-- C9: if an execution of the query resolves through a Succeeded network
answer (or an earlier cache hit), every later execution with the same
signature is served from the cache: the network-call counter does not move
and the result is the cached Succeeded payload. -/
theorem c9_warm_cache_short_circuits (st : QuerySystem) (sig : String)
    (d : Option QueryResponse) (net2 : TransportResult) :
    (executeQuery (executeQuery st sig (.succeeded d)).1 sig net2).1.networkCalls
      = (executeQuery st sig (.succeeded d)).1.networkCalls ∧
    ∃ d2, (executeQuery (executeQuery st sig (.succeeded d)).1 sig net2).2
      = .succeeded d2 := by
  rcases h : lookup st.cache sig with _ | d0
  · have h1 : (executeQuery st sig (.succeeded d)).1
        = ⟨store st.cache sig d, st.networkCalls + 1⟩ := by
      simp [executeQuery, h]
    rw [h1]
    simp [executeQuery, lookup_store]
  · have h1 : (executeQuery st sig (.succeeded d)).1 = st := by
      simp [executeQuery, h]
    rw [h1]
    simp [executeQuery, h]

end IrrApp
